import Mathlib

/-!
# Verification of the F1-Hawkeye telemetry aggregator

A shallow embedding of the state-mutation routines of
`src/packet_processing/packet_management.py`, the driver model of
`src/packet_processing/Player.py`, the session model of
`src/packet_processing/Session.py` and the bounded write queue of
`src/database/data_writer.py`, together with proofs about lap-boundary
detection, best-lap tracking, tyre-compound change events, damage-event
gating, session rollover and queue backpressure.

Modelling conventions:
* Python numbers are modelled exactly: integers as `Nat`/`Int` and
  fractional quantities as `Rat`.  Where the distinction between exact
  arithmetic and IEEE-754 doubles is load-bearing (the sector-3
  reconstruction), a separate binary64 model (`fl`, `dsub`, `dmul`, …)
  computes the double-precision result as an exact dyadic rational.
* `'%.2f' % x` string formatting followed by `float(...)` re-parsing is
  modelled numerically as rounding to two decimals with ties to even
  (`fmt2`), which is the value the round-trip preserves.
* Display-only driver fields (speed trap, DRS indicator text, minimap
  coordinates, names) and dictionary lookups that only translate ids to
  display strings are elided; no modelled field depends on them.
* The wire format is fixed-width: the per-car arrays always hold 22
  entries and the marshal-zone / weather arrays are never empty, so the
  packet structures are total.
* The `DATABASE_ENABLED and hasattr(...)` guards are taken as true (the
  database module is importable); the wall-clock-gated weather sampling
  block in `update_session` and the `time.time()` timestamps attached to
  queued items are not modelled (real time).
-/

namespace F1

/-- Three sector times in seconds, Python list indices 0, 1, 2. -/
structure Sectors where
  s0 : ℚ
  s1 : ℚ
  s2 : ℚ
deriving DecidableEq

/-- Per-corner tyre values, Python list indices 0-3 (RL, RR, FL, FR). -/
structure Wear where
  w0 : ℚ
  w1 : ℚ
  w2 : ℚ
  w3 : ℚ
deriving DecidableEq

/-- Per-corner tyre temperatures, list indices 0-3. -/
structure Temps where
  t0 : ℤ
  t1 : ℤ
  t2 : ℤ
  t3 : ℤ
deriving DecidableEq

/-- Python `int(x)` on a float/rational: truncation toward zero. -/
def pyInt (q : ℚ) : ℤ :=
  if 0 ≤ q then ⌊q⌋ else ⌈q⌉

/-- Round to the nearest integer, ties to even (IEEE-754 and Python
`round`/`'%.2f'` tie-breaking). -/
def rne (x : ℚ) : ℤ :=
  let f := ⌊x⌋
  if x - f < 1 / 2 then f
  else if 1 / 2 < x - f then f + 1
  else if f % 2 = 0 then f else f + 1

/-- Numeric effect of `'%.2f' % x` followed by `float(...)`: two-decimal
rounding, ties to even. -/
def fmt2 (q : ℚ) : ℚ :=
  (rne (q * 100) : ℚ) / 100

/-- Componentwise `'%.2f' % (float(a) - float(b))` over the four corners
(`packet_management.py:114`). -/
def wearSub (a b : Wear) : Wear :=
  ⟨fmt2 (a.w0 - b.w0), fmt2 (a.w1 - b.w1), fmt2 (a.w2 - b.w2), fmt2 (a.w3 - b.w3)⟩

/-- Componentwise `'%.2f' % tyre` formatting of a raw wear array
(`packet_management.py:351`). -/
def wearFmt (a : Wear) : Wear :=
  ⟨fmt2 a.w0, fmt2 a.w1, fmt2 a.w2, fmt2 a.w3⟩

/-- The driver slot (`Player.py`), restricted to the fields the modelled
handlers read or write.  Times are in the unit the source keeps them in:
`lastLapTime`/`bestLapTime` in milliseconds, sector times in seconds.
`lastDamageTotal` models the dynamically attached `_last_damage_total`
attribute, whose `hasattr` initialisation to 0 is equivalent to a field
that starts at 0. -/
structure Player where
  position : ℕ
  lastLapTime : ℚ
  bestLapTime : ℚ
  currentSectors : Sectors
  lastLapSectors : Sectors
  bestLapSectors : Sectors
  tyre_wear : Wear
  tyre_wear_on_last_lap : Wear
  tyre_wear_before_last_lap : Wear
  tyres : ℕ
  warnings : ℕ
  penalties : ℕ
  pit : ℕ
  driverStatus : ℕ
  currentLapTime : ℚ
  currentLapInvalid : ℕ
  resultStatus : ℕ
  tyresAgeLaps : ℕ
  fuelMix : ℕ
  fuelRemainingLaps : ℚ
  ERS_mode : ℤ
  ERS_pourcentage : ℤ
  DRS_allowed : ℕ
  DRS_activation_distance : ℕ
  tyres_temp_surface : Temps
  tyres_temp_inner : Temps
  frontLeftWingDamage : ℕ
  frontRightWingDamage : ℕ
  rearWingDamage : ℕ
  floorDamage : ℕ
  diffuserDamage : ℕ
  sidepodDamage : ℕ
  lastDamageTotal : ℕ
deriving DecidableEq

/-- `Player.__init__` (`Player.py:9-65`), restricted to modelled fields. -/
def Player.init : Player where
  position := 1
  lastLapTime := 0
  bestLapTime := 0
  currentSectors := ⟨0, 0, 0⟩
  lastLapSectors := ⟨0, 0, 0⟩
  bestLapSectors := ⟨0, 0, 0⟩
  tyre_wear := ⟨0, 0, 0, 0⟩
  tyre_wear_on_last_lap := ⟨0, 0, 0, 0⟩
  tyre_wear_before_last_lap := ⟨0, 0, 0, 0⟩
  tyres := 0
  warnings := 0
  penalties := 0
  pit := 0
  driverStatus := 0
  currentLapTime := 0
  currentLapInvalid := 1
  resultStatus := 0
  tyresAgeLaps := 0
  fuelMix := 0
  fuelRemainingLaps := 0
  ERS_mode := -1
  ERS_pourcentage := 0
  DRS_allowed := 0
  DRS_activation_distance := 0
  tyres_temp_surface := ⟨0, 0, 0, 0⟩
  tyres_temp_inner := ⟨0, 0, 0, 0⟩
  frontLeftWingDamage := 0
  frontRightWingDamage := 0
  rearWingDamage := 0
  floorDamage := 0
  diffuserDamage := 0
  sidepodDamage := 0
  lastDamageTotal := 0

/-- One marshal zone of the session packet. -/
structure MarshalZone where
  m_zone_start : ℚ
  m_zone_flag : ℕ
deriving DecidableEq

/-- One weather-forecast sample of the session packet. -/
structure WeatherForecastSample where
  m_session_type : ℕ
  m_time_offset : ℕ
  m_rain_percentage : ℕ
  m_weather : ℕ
  m_air_temperature : ℤ
  m_track_temperature : ℤ
deriving DecidableEq

instance : Inhabited WeatherForecastSample :=
  ⟨⟨0, 0, 0, 0, 0, 0⟩⟩

/-- The live session model (`Session.py:7-33`), restricted to the fields
the modelled handlers read or write.  `Session` is the session-type id
field of the same name in the source. -/
structure SessionState where
  airTemperature : ℤ
  trackTemperature : ℤ
  nbLaps : ℕ
  currentLap : ℕ
  tour_precedent : ℤ
  Session : ℕ
  time_left : ℕ
  track : ℤ
  marshalZones : List MarshalZone
  idxBestLapTime : ℤ
  bestLapTime : ℚ
  safetyCarStatus : ℕ
  trackLength : ℕ
  weatherList : List WeatherForecastSample
  nb_weatherForecastSamples : ℕ
  num_marshal_zones : ℕ
  flag : String
deriving DecidableEq

/-- `Session.__init__` (`Session.py:7-33`): note the sentinel values
`track = -1`, `idxBestLapTime = -1` and `bestLapTime = 5000`. -/
def SessionState.init : SessionState where
  airTemperature := 0
  trackTemperature := 0
  nbLaps := 0
  currentLap := 0
  tour_precedent := 0
  Session := 0
  time_left := 0
  track := -1
  marshalZones := []
  idxBestLapTime := -1
  bestLapTime := 5000
  safetyCarStatus := 0
  trackLength := 1
  weatherList := []
  nb_weatherForecastSamples := 0
  num_marshal_zones := 0
  flag := ""

/-- The whole mutable aggregator state: `PLAYERS_LIST` (22 fixed slots)
and the `session` singleton from `variables.py`. -/
structure GameState where
  players : Fin 22 → Player
  session : SessionState

/-- Process start-up state (`variables.py:72-73`). -/
def GameState.init : GameState :=
  ⟨fun _ => Player.init, SessionState.init⟩

/-- A derived event handed to the persistence writer.  Each constructor
carries the payload fields the claims refer to; the remaining dictionary
keys of the source (display names, temperatures already present on the
`Player`, …) are elided. -/
inductive Event where
  | lapCompleted (driverIndex : ℕ) (lapNumber : ℤ) (lapTimeMs : ℤ)
      (sector1Ms sector2Ms sector3Ms : Option ℤ) (position : ℕ)
  | tyreChanged (driverIndex : ℕ) (lapNumber : ℕ) (compound : ℕ)
      (ageLaps : ℕ) (wear : Wear) (surfaceTemp innerTemp : Temps)
  | damageIncrease (driverIndex : ℕ) (lapNumber : ℕ) (totalDelta : ℤ)
      (frontLeftWingDelta frontRightWingDelta rearWingDelta : ℤ)
      (damageType severity : String)
  | sessionCreated (trackId : ℤ) (sessionType : ℕ) (totalLaps : ℕ)
deriving DecidableEq

/-- Is this event a lap-completion record for driver slot `i`? -/
def Event.isLapFor (i : ℕ) : Event → Bool
  | .lapCompleted d _ _ _ _ _ _ => d = i
  | _ => false

/-- Is this event a tyre-change record for driver slot `i`? -/
def Event.isTyreFor (i : ℕ) : Event → Bool
  | .tyreChanged d _ _ _ _ _ _ => d = i
  | _ => false

/-- Is this event a damage record for driver slot `i`? -/
def Event.isDamageFor (i : ℕ) : Event → Bool
  | .damageIncrease d _ _ _ _ _ _ _ => d = i
  | _ => false

/-! ## The lap-data handler (`update_lap_data`, `packet_management.py:91-160`)

One `LapData` is one entry of `packet.m_lap_data`; the wire fields are
fixed-width unsigned integers (times in milliseconds), so they are
modelled as `Nat` and `round(x, 3)` on them is the identity. -/

/-- One per-car entry of the lap-data packet, restricted to the fields
the handler reads into modelled `Player` fields. -/
structure LapData where
  m_car_position : ℕ
  m_last_lap_time_in_ms : ℕ
  m_sector1_time_in_ms : ℕ
  m_sector2_time_in_ms : ℕ
  m_current_lap_time_in_ms : ℕ
  m_current_lap_num : ℕ
  m_corner_cutting_warnings : ℕ
  m_penalties : ℕ
  m_pit_status : ℕ
  m_driver_status : ℕ
  m_current_lap_invalid : ℕ
  m_result_status : ℕ
deriving DecidableEq

/-- The body of the per-driver loop of `update_lap_data`
(`packet_management.py:94-150`) as far as it touches the `Player` slot,
returning the updated slot and the lap records queued for it
(`telemetry_writer.queue_lap`, lines 117-145).  The loop body reads no
other slot, so it is a function of the one slot and the packet entry.

* lines 97-109: field copies (`joueur.lastLapTime = round(..., 3)` is
  the identity on the integer millisecond value);
* line 111: the lap-boundary edge — incoming sector-1 time is 0 while
  the stored current sector 1 is non-zero;
* lines 112-115: snapshot of the completed lap, with sector 3
  reconstructed as total lap time minus sectors 1 and 2, and the
  tyre-wear delta against the snapshot taken at the previous boundary;
* line 118: the queued lap record is additionally guarded by
  `joueur.lastLapTime > 0`;
* line 147: the stored current sectors are overwritten from the packet;
* lines 148-150: best lap updated on a strictly-better non-zero lap
  time, or whenever the stored best is still 0. -/
def stepLapPlayer (i : ℕ) (j : Player) (e : LapData) : Player × List Event :=
  let j1 : Player :=
    { j with
      position := e.m_car_position
      lastLapTime := (e.m_last_lap_time_in_ms : ℚ)
      pit := e.m_pit_status
      driverStatus := e.m_driver_status
      penalties := e.m_penalties
      warnings := e.m_corner_cutting_warnings
      currentLapTime := (e.m_current_lap_time_in_ms : ℚ) / 1000
      currentLapInvalid := e.m_current_lap_invalid
      resultStatus := e.m_result_status }
  let boundary : Prop :=
    e.m_sector1_time_in_ms = 0 ∧ j1.currentSectors.s0 ≠ 0
  let j2 : Player :=
    if boundary then
      { j1 with
        lastLapSectors :=
          ⟨j1.currentSectors.s0, j1.currentSectors.s1,
           j1.lastLapTime / 1000 - j1.currentSectors.s0 - j1.currentSectors.s1⟩
        tyre_wear_on_last_lap := wearSub j1.tyre_wear j1.tyre_wear_before_last_lap
        tyre_wear_before_last_lap := j1.tyre_wear }
    else j1
  let evs : List Event :=
    if boundary ∧ j1.lastLapTime > 0 then
      [Event.lapCompleted i ((e.m_current_lap_num : ℤ) - 1) (pyInt j2.lastLapTime)
        (if j2.lastLapSectors.s0 > 0 then some (pyInt (j2.lastLapSectors.s0 * 1000)) else none)
        (if j2.lastLapSectors.s1 > 0 then some (pyInt (j2.lastLapSectors.s1 * 1000)) else none)
        (if j2.lastLapSectors.s2 > 0 then some (pyInt (j2.lastLapSectors.s2 * 1000)) else none)
        j2.position]
    else []
  let j3 : Player :=
    { j2 with
      currentSectors :=
        ⟨(e.m_sector1_time_in_ms : ℚ) / 1000, (e.m_sector2_time_in_ms : ℚ) / 1000, 0⟩ }
  let j4 : Player :=
    if (j3.bestLapTime > (e.m_last_lap_time_in_ms : ℚ) ∧ e.m_last_lap_time_in_ms ≠ 0)
        ∨ j3.bestLapTime = 0 then
      { j3 with
        bestLapTime := (e.m_last_lap_time_in_ms : ℚ)
        bestLapSectors := j3.lastLapSectors }
    else j3
  (j4, evs)

/-- The session mutation of one iteration of the `update_lap_data` loop
(`packet_management.py:151-156`), given the slot as already updated by
that iteration. -/
def stepLapSession (s : SessionState) (i : ℕ) (j4 : Player) (e : LapData) : SessionState :=
  let s1 : SessionState :=
    if (j4.bestLapTime < s.bestLapTime ∧ e.m_last_lap_time_in_ms ≠ 0)
        ∨ j4.bestLapTime = 0 then
      { s with bestLapTime := j4.bestLapTime, idxBestLapTime := (i : ℤ) }
    else s
  if e.m_car_position = 1 then
    { s1 with
      currentLap := e.m_current_lap_num
      tour_precedent := (e.m_current_lap_num : ℤ) - 1 }
  else s1

/-- One iteration of the `for index in range(22)` loop of
`update_lap_data`: update the slot, append its queued records, update
the session. -/
def lapStep (p : Fin 22 → LapData) (acc : GameState × List Event) (i : Fin 22) :
    GameState × List Event :=
  let e := p i
  let r := stepLapPlayer i (acc.1.players i) e
  (⟨Function.update acc.1.players i r.1, stepLapSession acc.1.session i r.1 e⟩,
   acc.2 ++ r.2)

/-- `update_lap_data` (`packet_management.py:91-160`): the loop over the
22 slots in index order.  The speed-trap ranking of lines 158-160 only
writes the display-only `speedTrapPosition` field and is elided. -/
def updateLapData (st : GameState) (p : Fin 22 → LapData) : GameState × List Event :=
  (List.finRange 22).foldl (lapStep p) (st, [])

/-- Processing a whole session's stream of lap-data packets in arrival
order. -/
def processLapPackets (st : GameState) (ps : List (Fin 22 → LapData)) : GameState :=
  ps.foldl (fun s p => (updateLapData s p).1) st

/-! ### Structure of the 22-slot fold -/

theorem lapStep_players_ne (p : Fin 22 → LapData) (acc : GameState × List Event)
    (i k : Fin 22) (h : k ≠ i) :
    (lapStep p acc i).1.players k = acc.1.players k := by
  simp [lapStep, Function.update_noteq h]

theorem lapStep_players_self (p : Fin 22 → LapData) (acc : GameState × List Event)
    (i : Fin 22) :
    (lapStep p acc i).1.players i = (stepLapPlayer i (acc.1.players i) (p i)).1 := by
  simp [lapStep]

theorem lapStep_events (p : Fin 22 → LapData) (acc : GameState × List Event)
    (i : Fin 22) :
    (lapStep p acc i).2 = acc.2 ++ (stepLapPlayer i (acc.1.players i) (p i)).2 := by
  simp [lapStep]

theorem foldl_lapStep_players_notMem (p : Fin 22 → LapData) (l : List (Fin 22))
    (acc : GameState × List Event) (i : Fin 22) (h : i ∉ l) :
    (l.foldl (lapStep p) acc).1.players i = acc.1.players i := by
  induction l generalizing acc with
  | nil => rfl
  | cons a l ih =>
      simp only [List.foldl_cons]
      rw [ih _ (fun hm => h (List.mem_cons_of_mem a hm))]
      exact lapStep_players_ne p acc a i (fun he => h (he ▸ List.mem_cons_self a l))

theorem foldl_lapStep_players_mem (p : Fin 22 → LapData) (l : List (Fin 22))
    (acc : GameState × List Event) (i : Fin 22) (hnd : l.Nodup) (hm : i ∈ l) :
    (l.foldl (lapStep p) acc).1.players i = (stepLapPlayer i (acc.1.players i) (p i)).1 := by
  induction l generalizing acc with
  | nil => cases hm
  | cons a l ih =>
      simp only [List.foldl_cons]
      rcases List.mem_cons.mp hm with he | hm'
      · subst he
        rw [foldl_lapStep_players_notMem p l _ i (List.nodup_cons.mp hnd).1]
        exact lapStep_players_self p acc i
      · have hne : i ≠ a := fun he => (List.nodup_cons.mp hnd).1 (he ▸ hm')
        rw [ih _ (List.nodup_cons.mp hnd).2 hm', lapStep_players_ne p acc a i hne]

/-- Each slot of `update_lap_data` is transformed by the loop body applied
to its pre-packet value: the loop visits every index exactly once. -/
theorem updateLapData_players (st : GameState) (p : Fin 22 → LapData) (i : Fin 22) :
    (updateLapData st p).1.players i = (stepLapPlayer i (st.players i) (p i)).1 :=
  foldl_lapStep_players_mem p (List.finRange 22) (st, []) i
    (List.nodup_finRange 22) (List.mem_finRange i)

/-! ### Per-slot facts about `stepLapPlayer` -/

theorem stepLapPlayer_bestLapTime (i : ℕ) (j : Player) (e : LapData) :
    (stepLapPlayer i j e).1.bestLapTime =
      if (j.bestLapTime > (e.m_last_lap_time_in_ms : ℚ) ∧ e.m_last_lap_time_in_ms ≠ 0)
          ∨ j.bestLapTime = 0
      then (e.m_last_lap_time_in_ms : ℚ) else j.bestLapTime := by
  simp only [stepLapPlayer]
  split_ifs <;> simp_all

theorem stepLapPlayer_currentSectors (i : ℕ) (j : Player) (e : LapData) :
    (stepLapPlayer i j e).1.currentSectors =
      ⟨(e.m_sector1_time_in_ms : ℚ) / 1000, (e.m_sector2_time_in_ms : ℚ) / 1000, 0⟩ := by
  simp only [stepLapPlayer]
  split_ifs <;> rfl

theorem stepLapPlayer_events_length (i : ℕ) (j : Player) (e : LapData) :
    (stepLapPlayer i j e).2.length ≤ 1 := by
  simp only [stepLapPlayer]
  split_ifs <;> simp

theorem stepLapPlayer_events_other (i k : ℕ) (j : Player) (e : LapData) (h : k ≠ i) :
    (stepLapPlayer i j e).2.filter (Event.isLapFor k) = [] := by
  simp only [stepLapPlayer]
  split_ifs <;> simp [Event.isLapFor, Ne.symm h]

theorem stepLapPlayer_events_nil_of_not_boundary (i : ℕ) (j : Player) (e : LapData)
    (h : ¬(e.m_sector1_time_in_ms = 0 ∧ j.currentSectors.s0 ≠ 0)) :
    (stepLapPlayer i j e).2 = [] := by
  simp only [stepLapPlayer]
  split_ifs with h1 <;> first | rfl | exact absurd h1.1 h

/-- Number of lap-completion records queued for driver slot `i`. -/
def countLapFor (i : ℕ) (evs : List Event) : ℕ :=
  (evs.filter (Event.isLapFor i)).length

theorem countLapFor_append (i : ℕ) (a b : List Event) :
    countLapFor i (a ++ b) = countLapFor i a + countLapFor i b := by
  simp [countLapFor]

theorem foldl_lapStep_countLap (p : Fin 22 → LapData) (l : List (Fin 22))
    (acc : GameState × List Event) (i : Fin 22) (hnd : l.Nodup) :
    countLapFor i (l.foldl (lapStep p) acc).2 ≤
      countLapFor i acc.2 + (if i ∈ l then 1 else 0) := by
  induction l generalizing acc with
  | nil => simp
  | cons a l ih =>
      simp only [List.foldl_cons]
      have hacc2 : countLapFor i (lapStep p acc a).2 ≤
          countLapFor i acc.2 + (if i = a then 1 else 0) := by
        rw [lapStep_events, countLapFor_append]
        by_cases hia : i = a
        · subst hia
          have h1 : countLapFor i (stepLapPlayer i (acc.1.players i) (p i)).2 ≤ 1 :=
            le_trans (List.length_filter_le _ _) (stepLapPlayer_events_length _ _ _)
          have h2 : (if i = i then 1 else 0) = 1 := by simp
          rw [h2]
          omega
        · have h0 : countLapFor i (stepLapPlayer a (acc.1.players a) (p a)).2 = 0 := by
            have := stepLapPlayer_events_other a i (acc.1.players a) (p a)
              (fun hv => hia (Fin.val_injective hv))
            simp [countLapFor, this]
          simp [h0, hia]
      have hrec := ih (lapStep p acc a) (List.nodup_cons.mp hnd).2
      rcases List.nodup_cons.mp hnd with ⟨hna, _⟩
      by_cases hia : i = a
      · subst hia
        have hni : i ∉ l := hna
        simp only [hni, if_false, Nat.add_zero] at hrec
        have : countLapFor i acc.2 + (if i = i then 1 else 0) = countLapFor i acc.2 + 1 := by simp
        calc countLapFor i (l.foldl (lapStep p) (lapStep p acc i)).2
            ≤ countLapFor i (lapStep p acc i).2 := hrec
          _ ≤ countLapFor i acc.2 + 1 := by simpa using hacc2
          _ ≤ countLapFor i acc.2 + (if i ∈ i :: l then 1 else 0) := by simp
      · have hm : (i ∈ a :: l) = (i ∈ l) := by
          simp [List.mem_cons, hia]
        calc countLapFor i (l.foldl (lapStep p) (lapStep p acc a)).2
            ≤ countLapFor i (lapStep p acc a).2 + (if i ∈ l then 1 else 0) := hrec
          _ ≤ countLapFor i acc.2 + (if i ∈ l then 1 else 0) := by
              have := hacc2
              simp only [hia, if_false, Nat.add_zero] at this
              exact Nat.add_le_add_right this _
          _ = countLapFor i acc.2 + (if i ∈ a :: l then 1 else 0) := by
              simp [List.mem_cons, hia]

theorem foldl_lapStep_events_nil (p : Fin 22 → LapData) (l : List (Fin 22))
    (acc : GameState × List Event) (hnd : l.Nodup)
    (h : ∀ i ∈ l, (stepLapPlayer i (acc.1.players i) (p i)).2 = []) :
    (l.foldl (lapStep p) acc).2 = acc.2 := by
  induction l generalizing acc with
  | nil => rfl
  | cons a l ih =>
      simp only [List.foldl_cons]
      have hstep : (lapStep p acc a).2 = acc.2 := by
        rw [lapStep_events, h a (List.mem_cons_self a l), List.append_nil]
      rw [ih (lapStep p acc a) (List.nodup_cons.mp hnd).2, hstep]
      intro i hi
      have hne : i ≠ a := fun he => (List.nodup_cons.mp hnd).1 (he ▸ hi)
      rw [lapStep_players_ne p acc a i hne]
      exact h i (List.mem_cons_of_mem a hi)

theorem foldl_lapStep_filter_notMem (p : Fin 22 → LapData) (l : List (Fin 22))
    (acc : GameState × List Event) (i : Fin 22) (h : i ∉ l) :
    ((l.foldl (lapStep p) acc).2.filter (Event.isLapFor i)) =
      acc.2.filter (Event.isLapFor i) := by
  induction l generalizing acc with
  | nil => rfl
  | cons a l ih =>
      simp only [List.foldl_cons]
      rw [ih _ (fun hm => h (List.mem_cons_of_mem a hm))]
      have hne : (i : ℕ) ≠ (a : ℕ) :=
        fun hv => h ((Fin.val_injective hv) ▸ List.mem_cons_self a l)
      rw [lapStep_events, List.filter_append,
        stepLapPlayer_events_other a i _ (p a) hne, List.append_nil]

theorem foldl_lapStep_filter_self (p : Fin 22 → LapData) (l : List (Fin 22))
    (acc : GameState × List Event) (i : Fin 22) (hnd : l.Nodup)
    (hself : ∀ x : Player, ((stepLapPlayer i x (p i)).2.filter (Event.isLapFor i)) = []) :
    ((l.foldl (lapStep p) acc).2.filter (Event.isLapFor i)) =
      acc.2.filter (Event.isLapFor i) := by
  induction l generalizing acc with
  | nil => rfl
  | cons a l ih =>
      simp only [List.foldl_cons]
      have hstep : ((lapStep p acc a).2.filter (Event.isLapFor i)) =
          acc.2.filter (Event.isLapFor i) := by
        rw [lapStep_events, List.filter_append]
        by_cases hia : a = i
        · subst hia
          rw [hself, List.append_nil]
        · rw [stepLapPlayer_events_other a i _ (p a)
            (fun hv => hia (Fin.val_injective hv).symm), List.append_nil]
      rw [ih _ (List.nodup_cons.mp hnd).2, hstep]

/-! ### C1 / C3 / C10 : lap-boundary and best-lap properties -/

theorem stepLapPlayer_best_mono (i : ℕ) (j : Player) (e : LapData)
    (h : j.bestLapTime ≠ 0) :
    (stepLapPlayer i j e).1.bestLapTime ≤ j.bestLapTime ∧
      (stepLapPlayer i j e).1.bestLapTime ≠ 0 := by
  rw [stepLapPlayer_bestLapTime]
  split_ifs with hc
  · rcases hc with ⟨hgt, hne⟩ | hz
    · exact ⟨le_of_lt hgt, Nat.cast_ne_zero.mpr hne⟩
    · exact absurd hz h
  · exact ⟨le_refl _, h⟩

theorem stepLapPlayer_best_zero_lap (i : ℕ) (j : Player) (e : LapData)
    (h : j.bestLapTime ≠ 0) (hz : e.m_last_lap_time_in_ms = 0) :
    (stepLapPlayer i j e).1.bestLapTime = j.bestLapTime := by
  rw [stepLapPlayer_bestLapTime, if_neg]
  rintro (⟨-, hne⟩ | hb)
  · exact hne hz
  · exact h hb

theorem processLapPackets_best_mono (ps : List (Fin 22 → LapData)) (st : GameState)
    (i : Fin 22) (h : (st.players i).bestLapTime ≠ 0) :
    ((processLapPackets st ps).players i).bestLapTime ≤ (st.players i).bestLapTime ∧
      ((processLapPackets st ps).players i).bestLapTime ≠ 0 := by
  induction ps generalizing st with
  | nil => exact ⟨le_refl _, h⟩
  | cons p ps ih =>
      have hstep := stepLapPlayer_best_mono i (st.players i) (p i) h
      rw [← updateLapData_players st p i] at hstep
      have := ih (updateLapData st p).1 hstep.2
      exact ⟨le_trans this.1 hstep.1, this.2⟩

/-- C1: across any stream of lap-data packets, a slot's non-zero best-lap
time never increases and never returns to 0, and a packet reporting
`m_last_lap_time_in_ms = 0` leaves a non-zero best-lap time unchanged
(`packet_management.py:148-150`). -/
theorem claim_C1_best_lap_monotone (st : GameState) (ps : List (Fin 22 → LapData))
    (p : Fin 22 → LapData) (i : Fin 22)
    (h : (st.players i).bestLapTime ≠ 0) :
    (((processLapPackets st ps).players i).bestLapTime ≤ (st.players i).bestLapTime ∧
      ((processLapPackets st ps).players i).bestLapTime ≠ 0) ∧
    ((p i).m_last_lap_time_in_ms = 0 →
      ((updateLapData st p).1.players i).bestLapTime = (st.players i).bestLapTime) := by
  refine ⟨processLapPackets_best_mono ps st i h, fun hz => ?_⟩
  rw [updateLapData_players st p i]
  exact stepLapPlayer_best_zero_lap i (st.players i) (p i) h hz

theorem stepLapPlayer_events_nil_of_zero_lap (i : ℕ) (j : Player) (e : LapData)
    (hz : e.m_last_lap_time_in_ms = 0) :
    (stepLapPlayer i j e).2 = [] := by
  simp [stepLapPlayer, hz]

/-- C3: feeding the same lap-data packet twice in a row produces at most
one lap-completion record per driver slot — the first processing
overwrites `currentSectors` with the packet's sector values
(`packet_management.py:147`), so the zero-sector-1 edge of line 111
cannot fire again on the duplicate. -/
theorem claim_C3_duplicate_packet_idempotent (st : GameState) (p : Fin 22 → LapData)
    (i : Fin 22) :
    countLapFor i ((updateLapData st p).2 ++
      (updateLapData (updateLapData st p).1 p).2) ≤ 1 := by
  have h2 : (updateLapData (updateLapData st p).1 p).2 = [] := by
    apply foldl_lapStep_events_nil p (List.finRange 22) _ (List.nodup_finRange 22)
    intro k _
    apply stepLapPlayer_events_nil_of_not_boundary
    rintro ⟨hz, hnz⟩
    rw [show ((updateLapData st p).1, ([] : List Event)).1 = (updateLapData st p).1 from rfl,
      updateLapData_players st p k, stepLapPlayer_currentSectors] at hnz
    simp [hz] at hnz
  rw [countLapFor_append, h2]
  have h1 := foldl_lapStep_countLap p (List.finRange 22) (st, []) i (List.nodup_finRange 22)
  simp only [List.mem_finRange, if_true] at h1
  simpa [countLapFor] using h1

theorem stepLapPlayer_boundary_snapshot (i : ℕ) (j : Player) (e : LapData)
    (hb : e.m_sector1_time_in_ms = 0 ∧ j.currentSectors.s0 ≠ 0) :
    (stepLapPlayer i j e).1.lastLapSectors =
      ⟨j.currentSectors.s0, j.currentSectors.s1,
        (e.m_last_lap_time_in_ms : ℚ) / 1000 - j.currentSectors.s0 - j.currentSectors.s1⟩ ∧
    (stepLapPlayer i j e).1.tyre_wear_before_last_lap = j.tyre_wear ∧
    (stepLapPlayer i j e).1.tyre_wear_on_last_lap =
      wearSub j.tyre_wear j.tyre_wear_before_last_lap := by
  simp only [stepLapPlayer]
  split_ifs <;> simp_all

/-- C10: if the lap boundary fires while the reported last-lap time is 0,
the in-memory snapshot (`lastLapSectors`, wear delta, wear-before
snapshot) is still written, but no lap record is queued for that slot —
the `queue_lap` call is additionally guarded by `lastLapTime > 0`
(`packet_management.py:111-118`). -/
theorem claim_C10_zero_lap_not_persisted (st : GameState) (p : Fin 22 → LapData)
    (i : Fin 22)
    (hs1 : (p i).m_sector1_time_in_ms = 0)
    (hcs : (st.players i).currentSectors.s0 ≠ 0)
    (hz : (p i).m_last_lap_time_in_ms = 0) :
    ((updateLapData st p).1.players i).lastLapSectors =
      ⟨(st.players i).currentSectors.s0, (st.players i).currentSectors.s1,
        ((p i).m_last_lap_time_in_ms : ℚ) / 1000 -
          (st.players i).currentSectors.s0 - (st.players i).currentSectors.s1⟩ ∧
    ((updateLapData st p).1.players i).tyre_wear_before_last_lap =
      (st.players i).tyre_wear ∧
    ((updateLapData st p).1.players i).tyre_wear_on_last_lap =
      wearSub (st.players i).tyre_wear (st.players i).tyre_wear_before_last_lap ∧
    ((updateLapData st p).2.filter (Event.isLapFor i)) = [] := by
  have hsnap := stepLapPlayer_boundary_snapshot i (st.players i) (p i) ⟨hs1, hcs⟩
  rw [← updateLapData_players st p i] at hsnap
  refine ⟨hsnap.1, hsnap.2.1, hsnap.2.2, ?_⟩
  have := foldl_lapStep_filter_self p (List.finRange 22) (st, []) i
    (List.nodup_finRange 22)
    (fun x => by rw [stepLapPlayer_events_nil_of_zero_lap i x (p i) hz]; rfl)
  simpa [updateLapData] using this

/-! ## The session handler (`update_session`, `packet_management.py:25-88`) -/

/-- The session packet (packet type 1), restricted to the fields the
handler reads.  The wire arrays are fixed-width (21 marshal zones, 64
weather samples), so `m_weather_forecast_samples` is never empty in a
decoded packet. -/
structure PacketSessionData where
  m_weather_forecast_samples : List WeatherForecastSample
  m_total_laps : ℕ
  m_session_time_left : ℕ
  m_track_id : ℤ
  m_session_type : ℕ
  m_weather : ℕ
  m_marshal_zones : List MarshalZone
  m_num_marshal_zones : ℕ
  m_safety_car_status : ℕ
  m_track_length : ℕ
  m_num_weather_forecast_samples : ℕ
deriving DecidableEq

/-- The flag-scan loop of `update_session` (`packet_management.py:57-62`):
break to yellow on the first zone flagged 3; remember green on a zone
flagged 1 and keep scanning. -/
def computeFlag : List MarshalZone → String → String
  | [], acc => acc
  | z :: rest, acc =>
      if z.m_zone_flag = 3 then "🟡"
      else if z.m_zone_flag = 1 then computeFlag rest "🟢"
      else computeFlag rest acc

/-- `session.marshalZones[0].m_zone_start -= 1`
(`packet_management.py:63`); the decoded zone array is never empty. -/
def decrementFirstZone : List MarshalZone → List MarshalZone
  | [] => []
  | z :: r => { z with m_zone_start := z.m_zone_start - 1 } :: r

/-- `update_session` (`packet_management.py:25-88`).  Statement order
follows the source: temperature/lap/time copies; the rollover test on
(track id, session type) which stores the new track id and creates a
session record; then the unconditional session-type, marshal-zone, flag,
zone-start-decrement, safety-car, track-length assignments;
`clear_slot()` (empties the weather list) and the weather-list refill.
The `telemetry_writer.create_session` call is modelled as a
`sessionCreated` event (its name lookups are display strings); the
30-second wall-clock weather sampling block of lines 72-88 is untimed
state external to this model and emits nothing here.  No driver slot is
read or written anywhere in this handler. -/
def updateSession (st : GameState) (p : PacketSessionData) : GameState × List Event :=
  let s := st.session
  let sample0 := p.m_weather_forecast_samples.headI
  let s1 : SessionState :=
    { s with
      trackTemperature := sample0.m_track_temperature
      airTemperature := sample0.m_air_temperature
      nbLaps := p.m_total_laps
      time_left := p.m_session_time_left }
  let changed : Prop := s1.track ≠ p.m_track_id ∨ s1.Session ≠ p.m_session_type
  let s2 : SessionState := if changed then { s1 with track := p.m_track_id } else s1
  let evs : List Event :=
    if changed then [Event.sessionCreated p.m_track_id p.m_session_type p.m_total_laps]
    else []
  let s3 : SessionState :=
    { s2 with
      Session := p.m_session_type
      marshalZones := p.m_marshal_zones
      flag := computeFlag p.m_marshal_zones "" }
  let s4 : SessionState := { s3 with marshalZones := decrementFirstZone s3.marshalZones }
  let s5 : SessionState :=
    { s4 with
      num_marshal_zones := p.m_num_marshal_zones
      safetyCarStatus := p.m_safety_car_status
      trackLength := p.m_track_length
      weatherList := [] }
  let s6 : SessionState :=
    if p.m_num_weather_forecast_samples ≠ s5.nb_weatherForecastSamples then
      { s5 with nb_weatherForecastSamples := p.m_num_weather_forecast_samples }
    else s5
  let s7 : SessionState := { s6 with weatherList := p.m_weather_forecast_samples }
  (⟨st.players, s7⟩, evs)

/-! ## Generic 22-slot loop for the car-status and car-damage handlers

Both handlers mutate each slot independently of every other slot and
never write the session, so their loops share one fold. -/

/-- One `for index in range(22)` loop whose body maps slot `i` to
`f i slot` and queues `(f i slot).2`. -/
def slotFold (f : Fin 22 → Player → Player × List Event) (l : List (Fin 22))
    (acc : (Fin 22 → Player) × List Event) : (Fin 22 → Player) × List Event :=
  l.foldl (fun acc i => (Function.update acc.1 i (f i (acc.1 i)).1,
    acc.2 ++ (f i (acc.1 i)).2)) acc

theorem slotFold_cons (f : Fin 22 → Player → Player × List Event) (a : Fin 22)
    (l : List (Fin 22)) (acc : (Fin 22 → Player) × List Event) :
    slotFold f (a :: l) acc =
      slotFold f l (Function.update acc.1 a (f a (acc.1 a)).1, acc.2 ++ (f a (acc.1 a)).2) :=
  rfl

theorem slotFold_players_notMem (f : Fin 22 → Player → Player × List Event)
    (l : List (Fin 22)) (acc : (Fin 22 → Player) × List Event) (i : Fin 22)
    (h : i ∉ l) :
    (slotFold f l acc).1 i = acc.1 i := by
  induction l generalizing acc with
  | nil => rfl
  | cons a l ih =>
      rw [slotFold_cons, ih _ (fun hm => h (List.mem_cons_of_mem a hm))]
      exact Function.update_noteq (by rintro rfl; exact h (List.mem_cons_self i l)) _ _

theorem slotFold_players_mem (f : Fin 22 → Player → Player × List Event)
    (l : List (Fin 22)) (acc : (Fin 22 → Player) × List Event) (i : Fin 22)
    (hnd : l.Nodup) (hm : i ∈ l) :
    (slotFold f l acc).1 i = (f i (acc.1 i)).1 := by
  induction l generalizing acc with
  | nil => cases hm
  | cons a l ih =>
      rw [slotFold_cons]
      rcases List.mem_cons.mp hm with he | hm'
      · subst he
        rw [slotFold_players_notMem f l _ i (List.nodup_cons.mp hnd).1]
        simp
      · have hne : i ≠ a := fun he => (List.nodup_cons.mp hnd).1 (he ▸ hm')
        rw [ih _ (List.nodup_cons.mp hnd).2 hm']
        simp [Function.update_noteq hne]

theorem slotFold_filter_notMem (f : Fin 22 → Player → Player × List Event)
    (pred : Event → Bool) (l : List (Fin 22)) (acc : (Fin 22 → Player) × List Event)
    (i : Fin 22) (h : i ∉ l)
    (hother : ∀ (k : Fin 22) (x : Player), k ≠ i → ((f k x).2.filter pred) = []) :
    ((slotFold f l acc).2.filter pred) = acc.2.filter pred := by
  induction l generalizing acc with
  | nil => rfl
  | cons a l ih =>
      rw [slotFold_cons, ih _ (fun hm => h (List.mem_cons_of_mem a hm))]
      have hane : a ≠ i := by rintro rfl; exact h (List.mem_cons_self a l)
      show ((acc.2 ++ (f a (acc.1 a)).2).filter pred) = acc.2.filter pred
      rw [List.filter_append, hother a _ hane, List.append_nil]

theorem slotFold_filter_mem (f : Fin 22 → Player → Player × List Event)
    (pred : Event → Bool) (l : List (Fin 22)) (acc : (Fin 22 → Player) × List Event)
    (i : Fin 22) (hnd : l.Nodup) (hm : i ∈ l)
    (hother : ∀ (k : Fin 22) (x : Player), k ≠ i → ((f k x).2.filter pred) = []) :
    ((slotFold f l acc).2.filter pred) =
      acc.2.filter pred ++ ((f i (acc.1 i)).2.filter pred) := by
  induction l generalizing acc with
  | nil => cases hm
  | cons a l ih =>
      rw [slotFold_cons]
      rcases List.mem_cons.mp hm with he | hm'
      · subst he
        rw [slotFold_filter_notMem f pred l _ i (List.nodup_cons.mp hnd).1 hother]
        show ((acc.2 ++ (f i (acc.1 i)).2).filter pred) = _
        rw [List.filter_append]
      · have hne : i ≠ a := fun he => (List.nodup_cons.mp hnd).1 (he ▸ hm')
        rw [ih _ (List.nodup_cons.mp hnd).2 hm']
        show ((acc.2 ++ (f a (acc.1 a)).2).filter pred) ++
            ((f i (Function.update acc.1 a (f a (acc.1 a)).1 i)).2.filter pred) = _
        rw [List.filter_append, hother a _ (Ne.symm hne), List.append_nil,
          Function.update_noteq hne]

/-! ## The car-status handler (`update_car_status`, `packet_management.py:264-304`) -/

/-- One per-car entry of the car-status packet, restricted to the fields
the handler reads. -/
structure CarStatusData where
  m_fuel_mix : ℕ
  m_fuel_remaining_laps : ℚ
  m_tyres_age_laps : ℕ
  m_visual_tyre_compound : ℕ
  m_ers_deploy_mode : ℤ
  m_ers_store_energy : ℚ
  m_drs_allowed : ℕ
  m_drs_activation_distance : ℕ
deriving DecidableEq

/-- The body of the per-driver loop of `update_car_status`
(`packet_management.py:266-304`).  On a visual-compound mismatch (line
273) the handler first queues the tyre record — built from the still
unmodified `joueur.tyre_wear` and temperature arrays, i.e. the outgoing
set's state — and only then stores the new compound (line 299).  The
`len(...) > k` guards of lines 282-293 are always true on the fixed
4-entry arrays.  The modelled record keeps the compound id rather than
its dictionary display name. -/
def stepCarStatus (sessLap : ℕ) (i : ℕ) (j : Player) (e : CarStatusData) :
    Player × List Event :=
  let j1 : Player :=
    { j with
      fuelMix := e.m_fuel_mix
      fuelRemainingLaps := e.m_fuel_remaining_laps
      tyresAgeLaps := e.m_tyres_age_laps }
  let r : Player × List Event :=
    if j1.tyres ≠ e.m_visual_tyre_compound then
      ({ j1 with tyres := e.m_visual_tyre_compound },
       [Event.tyreChanged i sessLap e.m_visual_tyre_compound e.m_tyres_age_laps
          j1.tyre_wear j1.tyres_temp_surface j1.tyres_temp_inner])
    else (j1, [])
  ({ r.1 with
      ERS_mode := e.m_ers_deploy_mode
      ERS_pourcentage := rne (e.m_ers_store_energy / 40000)
      DRS_allowed := e.m_drs_allowed
      DRS_activation_distance := e.m_drs_activation_distance },
   r.2)

/-- `update_car_status` (`packet_management.py:264-304`): the loop over
the 22 slots; the session is only read (`session.currentLap` in the
queued record), never written. -/
def updateCarStatus (st : GameState) (p : Fin 22 → CarStatusData) : GameState × List Event :=
  let r := slotFold (fun i j => stepCarStatus st.session.currentLap i j (p i))
    (List.finRange 22) (st.players, [])
  (⟨r.1, st.session⟩, r.2)

/-! ## The car-damage handler (`update_car_damage`, `packet_management.py:306-358`) -/

/-- One per-car entry of the car-damage packet, restricted to the fields
the handler reads; the component damage values are integer
percentages. -/
structure CarDamageData where
  m_tyres_wear : Wear
  m_front_left_wing_damage : ℕ
  m_front_right_wing_damage : ℕ
  m_rear_wing_damage : ℕ
  m_floor_damage : ℕ
  m_diffuser_damage : ℕ
  m_sidepod_damage : ℕ
deriving DecidableEq

/-- `total_damage` of `packet_management.py:315-317`: the sum over the
six components. -/
def damageTotal (e : CarDamageData) : ℕ :=
  e.m_front_left_wing_damage + e.m_front_right_wing_damage + e.m_rear_wing_damage +
    e.m_floor_damage + e.m_diffuser_damage + e.m_sidepod_damage

/-- The significance gate of `packet_management.py:320-322`: some single
component strictly exceeds 5%. -/
def damageOver5 (e : CarDamageData) : Prop :=
  e.m_front_left_wing_damage > 5 ∨ e.m_front_right_wing_damage > 5 ∨
    e.m_rear_wing_damage > 5 ∨ e.m_floor_damage > 5 ∨
    e.m_diffuser_damage > 5 ∨ e.m_sidepod_damage > 5

instance (e : CarDamageData) : Decidable (damageOver5 e) := by
  unfold damageOver5
  infer_instance

/-- The body of the per-driver loop of `update_car_damage`
(`packet_management.py:308-358`): queue a damage record only when some
component exceeds 5% and the six-component total has risen by at least 2
points since the last queued record for this driver
(`_last_damage_total`); the wing deltas in the record are taken against
the still-unwritten damage fields of the slot; afterwards the wear and
damage fields are overwritten unconditionally (lines 351-358).  The
queued record keeps the total rise (which drives the
COLLISION/WEAR split of line 343) alongside the wing deltas. -/
def stepCarDamage (sessLap : ℕ) (i : ℕ) (j : Player) (e : CarDamageData) :
    Player × List Event :=
  let total := damageTotal e
  let fire : Prop :=
    damageOver5 e ∧ (total : ℤ) - (j.lastDamageTotal : ℤ) ≥ 2
  let evs : List Event :=
    if fire then
      [Event.damageIncrease i sessLap ((total : ℤ) - (j.lastDamageTotal : ℤ))
        ((e.m_front_left_wing_damage : ℤ) - (j.frontLeftWingDamage : ℤ))
        ((e.m_front_right_wing_damage : ℤ) - (j.frontRightWingDamage : ℤ))
        ((e.m_rear_wing_damage : ℤ) - (j.rearWingDamage : ℤ))
        (if (total : ℤ) - (j.lastDamageTotal : ℤ) > 10 then "COLLISION" else "WEAR")
        (if total > 30 then "HIGH" else if total > 10 then "MEDIUM" else "LOW")]
    else []
  let j1 : Player := if fire then { j with lastDamageTotal := total } else j
  ({ j1 with
      tyre_wear := wearFmt e.m_tyres_wear
      frontLeftWingDamage := e.m_front_left_wing_damage
      frontRightWingDamage := e.m_front_right_wing_damage
      rearWingDamage := e.m_rear_wing_damage
      floorDamage := e.m_floor_damage
      diffuserDamage := e.m_diffuser_damage
      sidepodDamage := e.m_sidepod_damage },
   evs)

/-- `update_car_damage` (`packet_management.py:306-358`): the loop over
the 22 slots; the session is only read, never written.  The
`tyre_blisters` formatting of line 352 touches no modelled field. -/
def updateCarDamage (st : GameState) (p : Fin 22 → CarDamageData) : GameState × List Event :=
  let r := slotFold (fun i j => stepCarDamage st.session.currentLap i j (p i))
    (List.finRange 22) (st.players, [])
  (⟨r.1, st.session⟩, r.2)

/-! ### C5 : compound-change detection -/

theorem stepCarStatus_events_other (sl : ℕ) (i k : ℕ) (j : Player) (e : CarStatusData)
    (h : k ≠ i) :
    ((stepCarStatus sl i j e).2.filter (Event.isTyreFor k)) = [] := by
  simp only [stepCarStatus]
  split_ifs <;> simp [Event.isTyreFor, Ne.symm h]

theorem stepCarStatus_change (sl : ℕ) (i : ℕ) (j : Player) (e : CarStatusData)
    (h : j.tyres ≠ e.m_visual_tyre_compound) :
    (stepCarStatus sl i j e).2 =
      [Event.tyreChanged i sl e.m_visual_tyre_compound e.m_tyres_age_laps
        j.tyre_wear j.tyres_temp_surface j.tyres_temp_inner] ∧
    (stepCarStatus sl i j e).1.tyres = e.m_visual_tyre_compound := by
  simp [stepCarStatus, h]

theorem stepCarStatus_same (sl : ℕ) (i : ℕ) (j : Player) (e : CarStatusData)
    (h : j.tyres = e.m_visual_tyre_compound) :
    (stepCarStatus sl i j e).2 = [] := by
  simp [stepCarStatus, h]

theorem updateCarStatus_players (st : GameState) (p : Fin 22 → CarStatusData)
    (i : Fin 22) :
    (updateCarStatus st p).1.players i =
      (stepCarStatus st.session.currentLap i (st.players i) (p i)).1 := by
  simp only [updateCarStatus]
  exact slotFold_players_mem _ (List.finRange 22) (st.players, []) i
    (List.nodup_finRange 22) (List.mem_finRange i)

theorem updateCarStatus_filter (st : GameState) (p : Fin 22 → CarStatusData)
    (i : Fin 22) :
    ((updateCarStatus st p).2.filter (Event.isTyreFor i)) =
      ((stepCarStatus st.session.currentLap i (st.players i) (p i)).2.filter
        (Event.isTyreFor i)) := by
  have := slotFold_filter_mem (fun k j => stepCarStatus st.session.currentLap k j (p k))
    (Event.isTyreFor i) (List.finRange 22) (st.players, []) i
    (List.nodup_finRange 22) (List.mem_finRange i)
    (fun k x hk => stepCarStatus_events_other st.session.currentLap k i x (p k)
      (fun hv => hk (Fin.val_injective hv).symm))
  simpa [updateCarStatus] using this

/-- C5: a car-status packet whose visual compound differs from the
slot's stored compound queues exactly one tyre record for that slot,
built from the pre-update wear and temperature snapshot (the enqueue of
`packet_management.py:276-295` precedes the compound overwrite of line
299), and afterwards the stored compound equals the incoming one; a
packet with an unchanged compound queues nothing for the slot. -/
theorem claim_C5_tyre_change_event (st : GameState) (p : Fin 22 → CarStatusData)
    (i : Fin 22) :
    ((st.players i).tyres ≠ (p i).m_visual_tyre_compound →
      ((updateCarStatus st p).2.filter (Event.isTyreFor i)) =
        [Event.tyreChanged i st.session.currentLap (p i).m_visual_tyre_compound
          (p i).m_tyres_age_laps (st.players i).tyre_wear
          (st.players i).tyres_temp_surface (st.players i).tyres_temp_inner] ∧
      ((updateCarStatus st p).1.players i).tyres = (p i).m_visual_tyre_compound) ∧
    ((st.players i).tyres = (p i).m_visual_tyre_compound →
      ((updateCarStatus st p).2.filter (Event.isTyreFor i)) = []) := by
  constructor
  · intro h
    have hc := stepCarStatus_change st.session.currentLap i (st.players i) (p i) h
    rw [updateCarStatus_filter, hc.1, updateCarStatus_players]
    refine ⟨?_, hc.2⟩
    simp [Event.isTyreFor]
  · intro h
    rw [updateCarStatus_filter, stepCarStatus_same st.session.currentLap i (st.players i)
      (p i) h]
    rfl

/-! ### C6 : damage-event gating -/

theorem stepCarDamage_events (sl : ℕ) (i : ℕ) (j : Player) (e : CarDamageData) :
    (stepCarDamage sl i j e).2 =
      if damageOver5 e ∧ (damageTotal e : ℤ) - (j.lastDamageTotal : ℤ) ≥ 2 then
        [Event.damageIncrease i sl ((damageTotal e : ℤ) - (j.lastDamageTotal : ℤ))
          ((e.m_front_left_wing_damage : ℤ) - (j.frontLeftWingDamage : ℤ))
          ((e.m_front_right_wing_damage : ℤ) - (j.frontRightWingDamage : ℤ))
          ((e.m_rear_wing_damage : ℤ) - (j.rearWingDamage : ℤ))
          (if (damageTotal e : ℤ) - (j.lastDamageTotal : ℤ) > 10 then "COLLISION" else "WEAR")
          (if damageTotal e > 30 then "HIGH" else if damageTotal e > 10 then "MEDIUM" else "LOW")]
      else [] :=
  rfl

theorem stepCarDamage_events_other (sl : ℕ) (i k : ℕ) (j : Player) (e : CarDamageData)
    (h : k ≠ i) :
    ((stepCarDamage sl i j e).2.filter (Event.isDamageFor k)) = [] := by
  rw [stepCarDamage_events]
  split_ifs <;> simp [Event.isDamageFor, Ne.symm h]

theorem updateCarDamage_filter (st : GameState) (p : Fin 22 → CarDamageData)
    (i : Fin 22) :
    ((updateCarDamage st p).2.filter (Event.isDamageFor i)) =
      ((stepCarDamage st.session.currentLap i (st.players i) (p i)).2.filter
        (Event.isDamageFor i)) := by
  have := slotFold_filter_mem (fun k j => stepCarDamage st.session.currentLap k j (p k))
    (Event.isDamageFor i) (List.finRange 22) (st.players, []) i
    (List.nodup_finRange 22) (List.mem_finRange i)
    (fun k x hk => stepCarDamage_events_other st.session.currentLap k i x (p k)
      (fun hv => hk (Fin.val_injective hv).symm))
  simpa [updateCarDamage] using this

/-- C6 (amended): a damage record for a slot is queued only when the
six-component total has risen by at least 2 points since the last queued
record for that driver AND some single component exceeds 5%
(`packet_management.py:320-329`); a rise from 10 to 11 queues nothing;
a rise from 10 to 13 queues exactly one record with a 3-point delta
provided the over-5% gate also holds. -/
theorem claim_C6_damage_gating (st : GameState) (p : Fin 22 → CarDamageData)
    (i : Fin 22) :
    (((updateCarDamage st p).2.filter (Event.isDamageFor i)) ≠ [] →
      damageOver5 (p i) ∧
        (damageTotal (p i) : ℤ) - ((st.players i).lastDamageTotal : ℤ) ≥ 2) ∧
    ((st.players i).lastDamageTotal = 10 → damageTotal (p i) = 11 →
      ((updateCarDamage st p).2.filter (Event.isDamageFor i)) = []) ∧
    ((st.players i).lastDamageTotal = 10 → damageTotal (p i) = 13 → damageOver5 (p i) →
      ((updateCarDamage st p).2.filter (Event.isDamageFor i)) =
        [Event.damageIncrease i st.session.currentLap 3
          ((p i).m_front_left_wing_damage - ((st.players i).frontLeftWingDamage : ℤ))
          ((p i).m_front_right_wing_damage - ((st.players i).frontRightWingDamage : ℤ))
          ((p i).m_rear_wing_damage - ((st.players i).rearWingDamage : ℤ))
          "WEAR" "MEDIUM"]) := by
  rw [updateCarDamage_filter, stepCarDamage_events]
  refine ⟨?_, ?_, ?_⟩
  · intro h
    by_contra hc
    rw [if_neg] at h
    · exact h rfl
    · intro hfire
      exact hc ⟨hfire.1, hfire.2⟩
  · intro h10 h11
    rw [if_neg]
    · rfl
    · rintro ⟨-, hge⟩
      rw [h10, h11] at hge
      omega
  · intro h10 h13 hover
    have hd : (damageTotal (p i) : ℤ) - ((st.players i).lastDamageTotal : ℤ) = 3 := by
      rw [h10, h13]; rfl
    rw [if_pos ⟨hover, by rw [hd]; omega⟩, hd]
    have hdt : ¬((3 : ℤ) > 10) := by omega
    have hs1 : ¬(damageTotal (p i) > 30) := by omega
    have hs2 : damageTotal (p i) > 10 := by omega
    rw [if_neg hdt, if_neg hs1, if_pos hs2]
    simp [Event.isDamageFor]

/-! ### C9 : session rollover -/

/-- C9 (amended): on a rollover — the incoming track id or session type
differs from the held session — `update_session` creates a session
record and replaces the session-scoped weather list and marshal-zone
data, but the 22 driver slots persist entirely unchanged: no driver
field (warnings, lap/sector timers, best-lap included) is cleared by
this handler.  (`Player.reset`, which clears those fields, runs from the
lights-out branch of `update_event`, not at rollover.) -/
theorem claim_C9_session_rollover (st : GameState) (p : PacketSessionData)
    (h : st.session.track ≠ p.m_track_id ∨ st.session.Session ≠ p.m_session_type) :
    (updateSession st p).2 =
      [Event.sessionCreated p.m_track_id p.m_session_type p.m_total_laps] ∧
    (updateSession st p).1.players = st.players ∧
    (updateSession st p).1.session.weatherList = p.m_weather_forecast_samples ∧
    (updateSession st p).1.session.marshalZones = decrementFirstZone p.m_marshal_zones ∧
    (updateSession st p).1.session.track = p.m_track_id ∧
    (updateSession st p).1.session.Session = p.m_session_type := by
  simp only [updateSession]
  split_ifs <;> simp_all

/-! ## The persistence writer queue (`data_writer.py`)

`TelemetryDataWriter.__init__` builds `queue.Queue(maxsize=10000)`; the
producer side enqueues with `put_nowait`, which accepts exactly when the
current size is strictly below the capacity and otherwise raises
`queue.Full`, caught by `_queue_write` which drops the item and prints a
warning (`data_writer.py:203-212`).  The model keeps the queue as the
list of queued type tags (the payload dictionaries and wall-clock
timestamps carry no information the claims use); `_queue_write` is a
total function — the producer never blocks — and the consumer side
(`_worker_loop`'s `get`) removes from the front. -/

/-- `maxsize=10000` (`data_writer.py:49`). -/
def QUEUE_MAXSIZE : ℕ := 10000

/-- The writer state: the bounded FIFO plus the warning counter standing
for the `Queue full, dropping …` prints. -/
structure TelemetryDataWriter where
  write_queue : List String
  current_session_id : Option ℕ
  droppedWarnings : ℕ
deriving DecidableEq

/-- Writer state right after `__init__` (`data_writer.py:41-61`). -/
def TelemetryDataWriter.init : TelemetryDataWriter :=
  ⟨[], none, 0⟩

/-- `_queue_write` (`data_writer.py:203-212`): non-blocking `put_nowait`;
on `queue.Full` the write is dropped and a warning recorded. -/
def queueWrite (w : TelemetryDataWriter) (dataType : String) : TelemetryDataWriter :=
  if w.write_queue.length < QUEUE_MAXSIZE then
    { w with write_queue := w.write_queue ++ [dataType] }
  else
    { w with droppedWarnings := w.droppedWarnings + 1 }

/-- The producer-facing `queue_lap`/`queue_tyre_data`/… entry points
(`data_writer.py:133-201`): discard when no session is established,
otherwise `_queue_write`. -/
def queueTyped (w : TelemetryDataWriter) (dataType : String) : TelemetryDataWriter :=
  if w.current_session_id = none then w else queueWrite w dataType

/-- The consumer side: one `write_queue.get` of `_worker_loop`
(`data_writer.py:223`). -/
def workerGet (w : TelemetryDataWriter) : TelemetryDataWriter :=
  { w with write_queue := w.write_queue.tail }

/-- One interleaving step of producers and the worker. -/
inductive WriterOp where
  | enqueue (dataType : String)
  | enqueueTyped (dataType : String)
  | dequeue
deriving DecidableEq

def applyWriterOp (w : TelemetryDataWriter) : WriterOp → TelemetryDataWriter
  | .enqueue t => queueWrite w t
  | .enqueueTyped t => queueTyped w t
  | .dequeue => workerGet w

def applyWriterOps (w : TelemetryDataWriter) (ops : List WriterOp) : TelemetryDataWriter :=
  ops.foldl applyWriterOp w

theorem queueWrite_length_le (w : TelemetryDataWriter) (t : String)
    (h : w.write_queue.length ≤ QUEUE_MAXSIZE) :
    (queueWrite w t).write_queue.length ≤ QUEUE_MAXSIZE := by
  unfold queueWrite
  split_ifs with hlt
  · simpa using hlt
  · exact h

theorem applyWriterOp_length_le (w : TelemetryDataWriter) (op : WriterOp)
    (h : w.write_queue.length ≤ QUEUE_MAXSIZE) :
    (applyWriterOp w op).write_queue.length ≤ QUEUE_MAXSIZE := by
  cases op with
  | enqueue t => exact queueWrite_length_le w t h
  | enqueueTyped t =>
      unfold applyWriterOp queueTyped
      split_ifs
      · exact h
      · exact queueWrite_length_le w t h
  | dequeue =>
      unfold applyWriterOp workerGet
      simp only [List.length_tail]
      omega

/-- C7: the enqueue path never blocks (it is a total function of the
writer state); an enqueue against a full 10,000-item queue drops the
item and only increments the warning counter; and under any interleaving
of producer enqueues and worker dequeues the queue never exceeds its
10,000-item capacity. -/
theorem claim_C7_queue_backpressure :
    (∀ (w : TelemetryDataWriter) (ops : List WriterOp),
      w.write_queue.length ≤ QUEUE_MAXSIZE →
        (applyWriterOps w ops).write_queue.length ≤ QUEUE_MAXSIZE) ∧
    (∀ (w : TelemetryDataWriter) (t : String),
      w.write_queue.length = QUEUE_MAXSIZE →
        queueWrite w t = { w with droppedWarnings := w.droppedWarnings + 1 }) := by
  constructor
  · intro w ops
    induction ops generalizing w with
    | nil => exact fun h => h
    | cons op ops ih =>
        intro h
        exact ih (applyWriterOp w op) (applyWriterOp_length_le w op h)
  · intro w t h
    unfold queueWrite
    rw [if_neg]
    omega

/-! ## Player ordering (`Player.__lt__`, `Player.py:70-76`) -/

/-- `Player.__lt__`: a slot with `position == 0` is never less-than
anything (the source comment wants it at the bottom of the table);
otherwise compare positions.  The `AttributeError` branch cannot trigger
on `Player` arguments. -/
def playerLt (a b : Player) : Bool :=
  if a.position = 0 then false else decide (a.position < b.position)

/-- Stable insertion of one element as CPython's `list.sort` performs it
on the 22-entry player list (binary insertion sort for short lists): the
new element is placed before the first existing element it compares
less-than, hence after every element it does not. -/
def sortedInsert (x : Player) : List Player → List Player
  | [] => [x]
  | e :: rest => if playerLt x e then x :: e :: rest else e :: sortedInsert x rest

/-- `sorted(PLAYERS_LIST)` (e.g. `table_models/LapTableModel.py:21`):
insert each element in turn into the sorted prefix. -/
def pySorted (l : List Player) : List Player :=
  l.foldl (fun acc x => sortedInsert x acc) []

/-! ## Binary64 arithmetic for the sector-3 reconstruction

The source computes `joueur.lastLapTime / 1_000 - sectors[0] - sectors[1]`
and `int(... * 1000)` in Python doubles.  Every double arising in
scenario B lies in `[1, 2^63)`, where a binary64 value is an integer
multiple of `2 ^ (⌊log2 x⌋ - 52)`; each basic operation is correctly
rounded to that grid, ties to even.  `fl` below is therefore an exact
model of the double rounding of a positive real in that range. -/

/-- `⌊log2 n⌋` for `n ≥ 1`, written with explicit fuel so that it is
structurally recursive; 64 units of fuel cover every `n < 2^64`. -/
def log2floor : ℕ → ℕ → ℕ
  | 0, _ => 0
  | fuel + 1, n => if 2 ≤ n then log2floor fuel (n / 2) + 1 else 0

/-- `2 ^ e` as a rational, for an integer exponent. -/
def qpow2 (e : ℤ) : ℚ :=
  if 0 ≤ e then ((2 ^ e.toNat : ℕ) : ℚ) else 1 / ((2 ^ (-e).toNat : ℕ) : ℚ)

/-- Spacing exponent of the binary64 grid around a rational in `[1, 2^63)`. -/
def ulpExp (q : ℚ) : ℤ :=
  (log2floor 64 (⌊q⌋).toNat : ℤ) - 52

/-- Round a positive rational in `[1, 2^63)` to the nearest binary64
double (ties to even), expressed as an exact rational. -/
def fl (q : ℚ) : ℚ :=
  (rne (q / qpow2 (ulpExp q)) : ℚ) * qpow2 (ulpExp q)

/-- Correctly-rounded double subtraction. -/
def dsub (a b : ℚ) : ℚ := fl (a - b)

/-- Correctly-rounded double multiplication. -/
def dmul (a b : ℚ) : ℚ := fl (a * b)

/-- Correctly-rounded double true division (Python `/`). -/
def ddiv (a b : ℚ) : ℚ := fl (a / b)

/-- The double the source stores in `lastLapSectors[2]` in scenario B:
`95300/1000 - 28500/1000 - 31200/1000` evaluated left-to-right in
binary64 (`packet_management.py:113`, with the stored sector seconds
themselves being the doubles `28500/1000` and `31200/1000` from line
147). -/
def scenarioB_sector3_py : ℚ :=
  dsub (dsub (ddiv 95300 1000) (ddiv 28500 1000)) (ddiv 31200 1000)

/-- The `sector3_time_ms` value the source queues in scenario B:
`int(lastLapSectors[2] * 1000)` in binary64 (`packet_management.py:129`). -/
def scenarioB_record_sector3_ms : ℤ :=
  pyInt (dmul scenarioB_sector3_py 1000)

/-! ## Concrete fixtures for the evaluation theorems and witnesses -/

/-- An all-zero lap-data entry. -/
def zeroLapData : LapData :=
  ⟨0, 0, 0, 0, 0, 0, 0, 0, 0, 0, 0, 0⟩

/-- A lap-data packet whose 22 entries are all zero (every slot idle,
all reported lap times 0). -/
def zeroLapPacket : Fin 22 → LapData :=
  fun _ => zeroLapData

/-- Scenario B prior state: driver slot 3 holds current sectors
28500 ms and 31200 ms (stored in seconds, as line 147 stores them). -/
def scenarioB_state : GameState :=
  { GameState.init with
    players := Function.update GameState.init.players 3
      { Player.init with currentSectors := ⟨(28500 : ℚ) / 1000, (31200 : ℚ) / 1000, 0⟩ } }

/-- Scenario B packet: slot 3 reports sector1 = 0 (lap boundary) with
last-lap time 95300 ms, now on lap 2, in position 4. -/
def scenarioB_packet : Fin 22 → LapData :=
  Function.update zeroLapPacket 3
    { zeroLapData with
      m_car_position := 4
      m_last_lap_time_in_ms := 95300
      m_current_lap_num := 2 }

/-- A slot whose best-lap time is already 90000 ms. -/
def bestState : GameState :=
  { GameState.init with
    players := Function.update GameState.init.players 0
      { Player.init with bestLapTime := 90000 } }

/-- Boundary-with-zero-lap fixture for C10: slot 2 holds current sectors
30 s and 32 s and non-trivial wear snapshots. -/
def c10State : GameState :=
  { GameState.init with
    players := Function.update GameState.init.players 2
      { Player.init with
        currentSectors := ⟨30, 32, 0⟩
        tyre_wear := ⟨5, 6, 7, 8⟩
        tyre_wear_before_last_lap := ⟨1, 2, 3, 4⟩ } }

/-- C10 packet: slot 2 reports sector1 = 0 with last-lap time 0. -/
def c10Packet : Fin 22 → LapData :=
  Function.update zeroLapPacket 2 { zeroLapData with m_current_lap_num := 1 }

/-- An all-zero car-status entry. -/
def zeroStatusData : CarStatusData :=
  ⟨0, 0, 0, 0, 0, 0, 0, 0⟩

/-- C5 fixture: slot 0 is on compound id 17 with a distinctive wear
snapshot. -/
def tyreState : GameState :=
  { GameState.init with
    players := Function.update GameState.init.players 0
      { Player.init with
        tyres := 17
        tyre_wear := ⟨1, 2, 3, 4⟩
        tyres_temp_surface := ⟨90, 91, 92, 93⟩
        tyres_temp_inner := ⟨100, 101, 102, 103⟩ } }

/-- C5 packet: slot 0 now reports visual compound 16, tyre age 2. -/
def statusPacketC5 : Fin 22 → CarStatusData :=
  Function.update (fun _ => zeroStatusData) 0
    { zeroStatusData with m_visual_tyre_compound := 16, m_tyres_age_laps := 2 }

/-- An all-zero car-damage entry. -/
def zeroDamageData : CarDamageData :=
  ⟨⟨0, 0, 0, 0⟩, 0, 0, 0, 0, 0, 0⟩

/-- C6 state: slot 5's last queued damage record was at a total of 10. -/
def damageState : GameState :=
  { GameState.init with
    players := Function.update GameState.init.players 5
      { Player.init with lastDamageTotal := 10 } }

/-- C6 counterexample packet: slot 5's total damage is 13 but spread as
3+2+2+2+2+2, so no single component exceeds 5. -/
def damagePacketSpread : Fin 22 → CarDamageData :=
  Function.update (fun _ => zeroDamageData) 5
    { zeroDamageData with
      m_front_left_wing_damage := 3
      m_front_right_wing_damage := 2
      m_rear_wing_damage := 2
      m_floor_damage := 2
      m_diffuser_damage := 2
      m_sidepod_damage := 2 }

/-- C6 witness packet: slot 5's total damage is 13, concentrated on the
front-left wing (13 > 5). -/
def damagePacketSpike : Fin 22 → CarDamageData :=
  Function.update (fun _ => zeroDamageData) 5
    { zeroDamageData with m_front_left_wing_damage := 13 }

/-- C9 fixture state: the held session is on track 0 and slot 0 has 3
corner-cutting warnings. -/
def rolloverState : GameState :=
  { players := Function.update GameState.init.players 0
      { Player.init with warnings := 3 }
    session := { SessionState.init with track := 0 } }

/-- C9 fixture packet: a session packet for track 5, session type 10. -/
def rolloverPacket : PacketSessionData where
  m_weather_forecast_samples := [⟨0, 0, 0, 0, 25, 30⟩]
  m_total_laps := 10
  m_session_time_left := 3600
  m_track_id := 5
  m_session_type := 10
  m_weather := 0
  m_marshal_zones := [⟨0, 0⟩]
  m_num_marshal_zones := 1
  m_safety_car_status := 0
  m_track_length := 4000
  m_num_weather_forecast_samples := 1

/-- A writer whose queue already holds its 10,000-item capacity. -/
def fullWriter : TelemetryDataWriter :=
  ⟨List.replicate 10000 "lap", some 1, 0⟩

/-- Player slots for the ordering counterexample. -/
def playerPos0 : Player :=
  { Player.init with position := 0 }

def playerPos1 : Player :=
  { Player.init with position := 1 }

/-! ## Concrete evaluations

`Rat.add`/`sub`/`mul`/`inv` are `@[irreducible]` in the library, which
blocks `decide` on concrete rational arithmetic; within this section
they are restored to their ordinary (semireducible) status so the
kernel can evaluate the embedded handlers on concrete inputs. -/

section EvaluationSection

set_option allowUnsafeReducibility true

set_option maxRecDepth 40000

attribute [local semireducible] Rat.add Rat.sub Rat.mul Rat.inv Rat.ofScientific

/-- C2: evaluating `update_lap_data` on the very first lap-data packet of
a session (all 22 slots idle, every reported last-lap time 0) from the
start-up state: the `or joueur.bestLapTime == 0` disjunct of
`packet_management.py:151` fires for every slot, overwriting the
session-wide best-lap record (initially the 5000 sentinel) with 0 and
leaving `idxBestLapTime` at the last slot index — contradicting the
claim that the session best is updated only on a strictly-lower non-zero
lap and never overwritten with 0. -/
theorem claim_C2_session_best_overwritten_with_zero :
    GameState.init.session.bestLapTime = 5000 ∧
    (∀ i : Fin 22, (zeroLapPacket i).m_last_lap_time_in_ms = 0) ∧
    (updateLapData GameState.init zeroLapPacket).1.session.bestLapTime = 0 ∧
    (updateLapData GameState.init zeroLapPacket).1.session.idxBestLapTime = 21 := by
  decide

set_option maxRecDepth 40000 in
/-- C4: on scenario B (slot 3 previously holding sectors 28500 ms and
31200 ms receives sector1 = 0 with last-lap time 95300 ms), the exact
reconstruction `total − s1 − s2` queued by the embedded handler is
35600 ms — but the binary64 arithmetic the Python source actually
performs (`95300/1000 - 28.5 - 31.2`, then `int(· * 1000)`) yields
35599, because the double value `35.599999999999994` is truncated, not
rounded, by `int()` (`packet_management.py:113,129`). -/
theorem claim_C4_sector3_reconstruction :
    ((updateLapData scenarioB_state scenarioB_packet).2.filter (Event.isLapFor 3)) =
      [Event.lapCompleted 3 1 95300 (some 28500) (some 31200) (some 35600) 4] ∧
    scenarioB_record_sector3_ms = 35599 ∧ (35599 : ℤ) ≠ 35600 := by
  decide

/-- C8: a counterexample to "a position-0 slot always sorts last": under
`Player.__lt__` a position-0 player is never less-than anything, but
neither is any player less-than it (`n < 0` is false), so a stable sort
leaves `[pos 0, pos 1]` unchanged — the position-0 slot stays first,
ahead of an actively classified player. -/
theorem claim_C8_position0_sorts_first :
    pySorted [playerPos0, playerPos1] = [playerPos0, playerPos1] ∧
    playerPos0.position = 0 ∧ playerPos1.position ≠ 0 := by
  decide

/-- C6 counterexample: slot 5's total damage rises from 10 to 13 (a
3-point rise, at least the 2-point threshold), yet no damage record is
queued, because the rise is spread 3+2+2+2+2+2 and the additional
`> 5` single-component gate of `packet_management.py:320-322` fails. -/
theorem claim_C6_counterexample :
    (damageState.players 5).lastDamageTotal = 10 ∧
    damageTotal (damagePacketSpread 5) = 13 ∧
    ((updateCarDamage damageState damagePacketSpread).2.filter (Event.isDamageFor 5)) =
      [] := by
  decide

/-- C9 counterexample: a session packet with a different track id (a
rollover) leaves slot 0's corner-cutting warnings at 3 — `update_session`
clears no driver field, contradicting the claim that warnings, lap and
sector timers and best-lap are cleared at rollover. -/
theorem claim_C9_counterexample :
    (rolloverState.session.track ≠ rolloverPacket.m_track_id ∨
      rolloverState.session.Session ≠ rolloverPacket.m_session_type) ∧
    (rolloverState.players 0).warnings = 3 ∧
    ((updateSession rolloverState rolloverPacket).1.players 0).warnings = 3 := by
  decide

/-- Witness for C1 at a concrete input: slot 0 holds a 90000 ms best
lap; a packet stream reporting last-lap time 0 leaves it unchanged. -/
theorem claim_C1_witness :
    (bestState.players 0).bestLapTime ≠ 0 ∧
    ((((processLapPackets bestState [zeroLapPacket]).players 0).bestLapTime ≤
        (bestState.players 0).bestLapTime ∧
      ((processLapPackets bestState [zeroLapPacket]).players 0).bestLapTime ≠ 0) ∧
    ((zeroLapPacket 0).m_last_lap_time_in_ms = 0 →
      ((updateLapData bestState zeroLapPacket).1.players 0).bestLapTime =
        (bestState.players 0).bestLapTime)) :=
  ⟨by decide, claim_C1_best_lap_monotone bestState [zeroLapPacket] zeroLapPacket 0 (by decide)⟩

/-- Witness for C5 at a concrete input: slot 0 switches from compound 17
to 16; exactly one tyre record, carrying the pre-change wear snapshot,
is queued. -/
theorem claim_C5_witness :
    (tyreState.players 0).tyres ≠ (statusPacketC5 0).m_visual_tyre_compound ∧
    (((updateCarStatus tyreState statusPacketC5).2.filter
        (Event.isTyreFor ((0 : Fin 22) : ℕ))) =
      [Event.tyreChanged ((0 : Fin 22) : ℕ) tyreState.session.currentLap
        (statusPacketC5 0).m_visual_tyre_compound (statusPacketC5 0).m_tyres_age_laps
        (tyreState.players 0).tyre_wear (tyreState.players 0).tyres_temp_surface
        (tyreState.players 0).tyres_temp_inner] ∧
      ((updateCarStatus tyreState statusPacketC5).1.players 0).tyres =
        (statusPacketC5 0).m_visual_tyre_compound) :=
  ⟨by decide, (claim_C5_tyre_change_event tyreState statusPacketC5 0).1 (by decide)⟩

/-- Witness for C6 at a concrete input: slot 5's total damage rises from
10 to 13 concentrated on one component (13 > 5), so exactly one record
with a 3-point delta is queued. -/
theorem claim_C6_witness :
    (damageState.players 5).lastDamageTotal = 10 ∧
    damageTotal (damagePacketSpike 5) = 13 ∧
    damageOver5 (damagePacketSpike 5) ∧
    ((updateCarDamage damageState damagePacketSpike).2.filter
        (Event.isDamageFor ((5 : Fin 22) : ℕ))) =
      [Event.damageIncrease ((5 : Fin 22) : ℕ) damageState.session.currentLap 3
        ((damagePacketSpike 5).m_front_left_wing_damage -
          ((damageState.players 5).frontLeftWingDamage : ℤ))
        ((damagePacketSpike 5).m_front_right_wing_damage -
          ((damageState.players 5).frontRightWingDamage : ℤ))
        ((damagePacketSpike 5).m_rear_wing_damage -
          ((damageState.players 5).rearWingDamage : ℤ))
        "WEAR" "MEDIUM"] :=
  ⟨by decide, by decide, by decide,
   (claim_C6_damage_gating damageState damagePacketSpike 5).2.2
     (by decide) (by decide) (by decide)⟩

theorem fullWriter_queue_length : fullWriter.write_queue.length = QUEUE_MAXSIZE := by
  show (List.replicate 10000 "lap").length = 10000
  rw [List.length_replicate]

/-- Witness for C7 at a concrete input: a writer whose queue already
holds 10,000 items stays within capacity after another enqueue, and that
enqueue drops the item, recording only a warning. -/
theorem claim_C7_witness :
    (fullWriter.write_queue.length ≤ QUEUE_MAXSIZE ∧
      (applyWriterOps fullWriter [WriterOp.enqueue "lap"]).write_queue.length ≤
        QUEUE_MAXSIZE) ∧
    (fullWriter.write_queue.length = QUEUE_MAXSIZE ∧
      queueWrite fullWriter "tyre" =
        { fullWriter with droppedWarnings := fullWriter.droppedWarnings + 1 }) :=
  ⟨⟨le_of_eq fullWriter_queue_length,
    claim_C7_queue_backpressure.1 fullWriter [WriterOp.enqueue "lap"]
      (le_of_eq fullWriter_queue_length)⟩,
   ⟨fullWriter_queue_length,
    claim_C7_queue_backpressure.2 fullWriter "tyre" fullWriter_queue_length⟩⟩

/-- Witness for C9 (amended) at a concrete input: the rollover from
track 0 to track 5 creates a session record, replaces the weather and
marshal-zone data and leaves all 22 slots untouched. -/
theorem claim_C9_witness :
    (rolloverState.session.track ≠ rolloverPacket.m_track_id ∨
      rolloverState.session.Session ≠ rolloverPacket.m_session_type) ∧
    ((updateSession rolloverState rolloverPacket).2 =
      [Event.sessionCreated rolloverPacket.m_track_id rolloverPacket.m_session_type
        rolloverPacket.m_total_laps] ∧
    (updateSession rolloverState rolloverPacket).1.players = rolloverState.players ∧
    (updateSession rolloverState rolloverPacket).1.session.weatherList =
      rolloverPacket.m_weather_forecast_samples ∧
    (updateSession rolloverState rolloverPacket).1.session.marshalZones =
      decrementFirstZone rolloverPacket.m_marshal_zones ∧
    (updateSession rolloverState rolloverPacket).1.session.track =
      rolloverPacket.m_track_id ∧
    (updateSession rolloverState rolloverPacket).1.session.Session =
      rolloverPacket.m_session_type) :=
  ⟨by decide, claim_C9_session_rollover rolloverState rolloverPacket (by decide)⟩

/-- Witness for C10 at a concrete input: slot 2's boundary fires with a
reported last-lap time of 0; the snapshot is written but no lap record
is queued. -/
theorem claim_C10_witness :
    ((c10Packet 2).m_sector1_time_in_ms = 0 ∧
      (c10State.players 2).currentSectors.s0 ≠ 0 ∧
      (c10Packet 2).m_last_lap_time_in_ms = 0) ∧
    (((updateLapData c10State c10Packet).1.players 2).lastLapSectors =
      ⟨(c10State.players 2).currentSectors.s0, (c10State.players 2).currentSectors.s1,
        ((c10Packet 2).m_last_lap_time_in_ms : ℚ) / 1000 -
          (c10State.players 2).currentSectors.s0 -
          (c10State.players 2).currentSectors.s1⟩ ∧
    ((updateLapData c10State c10Packet).1.players 2).tyre_wear_before_last_lap =
      (c10State.players 2).tyre_wear ∧
    ((updateLapData c10State c10Packet).1.players 2).tyre_wear_on_last_lap =
      wearSub (c10State.players 2).tyre_wear
        (c10State.players 2).tyre_wear_before_last_lap ∧
    ((updateLapData c10State c10Packet).2.filter (Event.isLapFor 2)) = []) :=
  ⟨⟨by decide, by decide, by decide⟩,
   claim_C10_zero_lap_not_persisted c10State c10Packet 2
     (by decide) (by decide) (by decide)⟩

end EvaluationSection

end F1
